import Mathlib

/-!
Shallow embedding of the browser-side rendering layer: the DocString
element renderer (modelled from the spec and its test suite, since the
component implementation is not among the provided sources) and the
GraphVizChart component (embedded from
src/frontend/lib/src/components/elements/GraphVizChart/GraphVizChart.tsx).
-/

namespace Streamlit

/-- Truthiness of an optional protobuf string field, as JavaScript sees it:
an absent field and the empty string are both falsy. -/
def present (o : Option String) : Bool := o.getD "" != ""

/-- JavaScript `a || b` on strings: `a` when non-empty, else `b`. -/
def jsOrStr (a b : String) : String := if a == "" then b else a

/-- A rendered DOM node: an optional data-testid tag, optional direct text
content, and child nodes. -/
inductive Node : Type where
  | mk : Option String → Option String → List Node → Node

def Node.testId : Node → Option String
  | Node.mk t _ _ => t

def Node.text : Node → Option String
  | Node.mk _ s _ => s

def Node.children : Node → List Node
  | Node.mk _ _ c => c

mutual

/-- All nodes of a tree, root first, in document order. -/
def nodesOf : Node → List Node
  | Node.mk t s cs => Node.mk t s cs :: nodesOfList cs

def nodesOfList : List Node → List Node
  | [] => []
  | n :: ns => nodesOf n ++ nodesOfList ns

end

/-- The nodes of a forest carrying a given data-testid, in document order. -/
def withTestId (t : String) (ns : List Node) : List Node :=
  (nodesOfList ns).filter (fun m => m.testId == some t)

/-- How many nodes of a forest carry a given data-testid. -/
def countTestId (t : String) (ns : List Node) : Nat :=
  (withTestId t ns).length

/-- All text fragments of a forest, in document order. -/
def textsOf (ns : List Node) : List String :=
  (nodesOfList ns).filterMap Node.text

/-- A leaf region rendered only under a condition, as in
`cond ? <Tag data-testid=tid>txt</Tag> : null`. -/
def optNode (b : Bool) (tid : String) (tx : Option String) : List Node :=
  if b then [Node.mk (some tid) tx []] else []

/-- A Member entry of a DocString descriptor: optional name, value, type and
docString (spec, section 3). -/
structure MemberProto where
  name : Option String
  value : Option String
  type : Option String
  docString : Option String

/-- A DocString descriptor: optional name, value, type, docString and an
ordered sequence of Member entries (spec, section 3). -/
structure DocStringProto where
  name : Option String
  value : Option String
  type : Option String
  docString : Option String
  members : List MemberProto

/-- Modelled from the spec: the Member renderer of the DocString component.
The implementation file DocString.tsx is not among the provided sources; only
its test suite is. Spec, section 3: "Member: value takes display priority
over docString when both present; absence of docString and value yields a
no docs available placeholder; type displays only if present." The row tag
stMember, the region tags stMemberDocName, stMemberDocType, stMemberDocValue,
stMemberDocString and the placeholder text are the ones the test suite
observes. -/
def memberChildren (m : MemberProto) : List Node :=
  optNode (present m.name) "stMemberDocName" m.name
    ++ optNode (present m.type) "stMemberDocType" m.type
    ++ (if present m.value then
          [Node.mk (some "stMemberDocValue") m.value []]
        else
          [Node.mk (some "stMemberDocString")
            (some (jsOrStr (m.docString.getD "") "No docs available")) []])

/-- Modelled from the spec: the member row, tagged stMember, holding the
member regions. -/
def renderMember (m : MemberProto) : Node :=
  Node.mk (some "stMember") none (memberChildren m)

/-- Whether the doc header has anything to show: at least one of name, value,
type is present (spec, section 3 invariant). -/
def headerShown (d : DocStringProto) : Bool :=
  present d.name || present d.value || present d.type

/-- Modelled from the spec: the header block of the DocString component,
tagged stDocstring, shown only when at least one of name, value, type is
present; each field renders its own region only when present. -/
def headerBlock (d : DocStringProto) : List Node :=
  if headerShown d then
    [Node.mk (some "stDocstring") none
      (optNode (present d.name) "stDocstringDocName" d.name
        ++ optNode (present d.value) "stDocstringDocValue" d.value
        ++ optNode (present d.type) "stDocstringDocType" d.type)]
  else []

/-- Modelled from the spec: the docstring body of the DocString component.
When the docString is present it renders in its own stDocstring container
(the test suite counts two stDocstring containers when the header fields and
the docString are all present); when it is absent but the header shows, the
placeholder "No docs available" renders in an untagged container (the test
suite counts one stDocstring container in that case); otherwise nothing. -/
def docBlock (d : DocStringProto) : List Node :=
  if present d.docString then
    [Node.mk (some "stDocstring") none
      [Node.mk (some "stDocstringDocstring") d.docString []]]
  else if headerShown d then
    [Node.mk none none
      [Node.mk (some "stDocstringDocstring") (some "No docs available") []]]
  else []

/-- Modelled from the spec: the members table of the DocString component,
rendered only when the member sequence is non-empty, with one row per member
(spec, sections 3 and 8). -/
def membersBlock (d : DocStringProto) : List Node :=
  if d.members.isEmpty then []
  else [Node.mk (some "stDocstringMembersTable") none
          (d.members.map renderMember)]

/-- Modelled from the spec: the full DocString renderer, a pure function of
the descriptor (spec, section 4.1). -/
def renderDocString (d : DocStringProto) : List Node :=
  headerBlock d ++ docBlock d ++ membersBlock d

/-- The GraphVizChart element descriptor: a DOT specification string, an
element identifier, and the container-width flag
(GraphVizChart.tsx, `element` of GraphVizChartProto). -/
structure GraphVizChartProto where
  elementId : String
  spec : String
  useContainerWidth : Bool

/-- The props of GraphVizChart (GraphVizChart.tsx lines 25-29): a width, the
element descriptor, and an optional height. Numbers are modelled as rationals. -/
structure GraphVizChartProps where
  width : ℚ
  element : GraphVizChartProto
  height : Option ℚ

/-- GraphVizChart.tsx line 41:
`const isFullScreen = (height = 0): boolean => Boolean(height)` -/
def isFullScreen (height : Option ℚ) : Bool := height.getD 0 != 0

/-- JavaScript `a || b` on numbers: `b` when `a` is falsy (zero), else `a`. -/
def jsOr (a b : ℚ) : ℚ := if a == 0 then b else a

/-- JavaScript `Math.round`: the floor of the argument plus one half. -/
def jsRound (x : ℚ) : ℤ := ⌊x + 1 / 2⌋

/-- GraphVizChart.tsx line 48: `graphviz-chart-` followed by the element id. -/
def chartId (element : GraphVizChartProto) : String :=
  "graphviz-chart-" ++ element.elementId

/-- GraphVizChart.tsx lines 31-34. -/
structure Dimensions where
  chartWidth : ℚ
  chartHeight : ℚ

/-- GraphVizChart.tsx lines 54-62, `getChartDimensions`:
`chartWidth = isFull ? propWidth : element.useContainerWidth ? propWidth : originalWidth`,
`chartHeight = isFull ? propHeight || originalHeight : originalHeight`. -/
def getChartDimensions (isFull : Bool) (propWidth : ℚ) (propHeight : Option ℚ)
    (useContainerWidth : Bool) (originalWidth originalHeight : ℚ) : Dimensions :=
  { chartWidth :=
      if isFull then propWidth
      else if useContainerWidth then propWidth
      else originalWidth,
    chartHeight :=
      if isFull then jsOr (propHeight.getD 0) originalHeight
      else originalHeight }

/-- The width and height attributes written onto the rendered svg node. -/
structure SvgAttrs where
  width : String
  height : String

/-- GraphVizChart.tsx lines 64-71, `setSvgDimensions`: the bounding box of the
svg node is measured and rounded into originalWidth and originalHeight, and the
svg width and height attributes are set to those values in point units in
full-screen mode and to the string 100% inline. Returns the attributes together
with the measured originalWidth and originalHeight. -/
def setSvgDimensions (isFull : Bool) (bboxWidth bboxHeight : ℚ) :
    SvgAttrs × ℤ × ℤ :=
  let originalHeight := jsRound bboxHeight
  let originalWidth := jsRound bboxWidth
  ({ width := if isFull then toString originalWidth ++ "pt" else "100%",
     height := if isFull then toString originalHeight ++ "pt" else "100%" },
   originalWidth, originalHeight)

/-- The container markup GraphVizChart returns (GraphVizChart.tsx lines
89-100): class and id of the StyledGraphVizChart, and the style width and
height computed from getChartDimensions with the JavaScript fallbacks
`chartWidth || propWidth` and `chartHeight || propHeight`. -/
structure RenderedContainer where
  className : String
  id : String
  styleWidth : ℚ
  styleHeight : Option ℚ

/-- GraphVizChart.tsx lines 43-101 at given current values of the locals
originalWidth and originalHeight (both are re-initialised to 0 on every render
before getChartDimensions runs, lines 51-52). -/
def renderContainer (props : GraphVizChartProps)
    (originalWidth originalHeight : ℚ) : RenderedContainer :=
  let isFull := isFullScreen props.height
  let dims := getChartDimensions isFull props.width props.height
    props.element.useContainerWidth originalWidth originalHeight
  { className := "graphviz stGraphVizChart",
    id := chartId props.element,
    styleWidth := jsOr dims.chartWidth props.width,
    styleHeight :=
      if dims.chartHeight == 0 then props.height else some dims.chartHeight }

/-- One render of GraphVizChart: the locals originalWidth and originalHeight
hold 0 when getChartDimensions is called (lines 51-52 and 89). -/
def renderGraphVizChart (props : GraphVizChartProps) : RenderedContainer :=
  renderContainer props 0 0

/-- A registered React effect: its dependency array and its cleanup. -/
structure ReactEffect where
  deps : ℚ × String
  cleanup : Option Unit

/-- GraphVizChart.tsx lines 73-87: the layout effect depends exactly on
`[propWidth, element.spec]` and registers no cleanup. -/
def graphVizEffect (props : GraphVizChartProps) : ReactEffect :=
  { deps := (props.width, props.element.spec), cleanup := none }

/-- React re-runs an effect on a re-render exactly when its dependency array
changed between the two renders. -/
def effectReruns (p q : GraphVizChartProps) : Bool :=
  decide ((graphVizEffect p).deps ≠ (graphVizEffect q).deps)

/-- GraphVizChart.tsx line 83: `logError(error)` appends the error to the log. -/
def logError (e : String) (logs : List String) : List String := logs ++ [e]

/-- GraphVizChart.tsx lines 73-85, the body of the effect: the layout
invocation may throw; the surrounding try/catch turns a thrown error into a
logError call, so the body itself always completes normally. -/
def graphVizEffectBody (layoutOutcome : Except String Unit) :
    Except String (List String) :=
  match layoutOutcome with
  | Except.ok _ => Except.ok []
  | Except.error e => Except.ok (logError e [])

lemma nodesOf_mk (t s : Option String) (cs : List Node) :
    nodesOf (Node.mk t s cs) = Node.mk t s cs :: nodesOfList cs := rfl

lemma nodesOfList_nil : nodesOfList [] = [] := rfl

lemma nodesOfList_cons (n : Node) (ns : List Node) :
    nodesOfList (n :: ns) = nodesOf n ++ nodesOfList ns := rfl

lemma nodesOfList_append (ns ms : List Node) :
    nodesOfList (ns ++ ms) = nodesOfList ns ++ nodesOfList ms := by
  induction ns with
  | nil => rfl
  | cons n ns ih => simp [nodesOfList_cons, ih]

lemma withTestId_nil (t : String) : withTestId t [] = [] := rfl

lemma countTestId_nil (t : String) : countTestId t [] = 0 := rfl

lemma textsOf_nil : textsOf [] = [] := rfl

lemma withTestId_append (t : String) (ns ms : List Node) :
    withTestId t (ns ++ ms) = withTestId t ns ++ withTestId t ms := by
  simp [withTestId, nodesOfList_append, List.filter_append]

lemma countTestId_append (t : String) (ns ms : List Node) :
    countTestId t (ns ++ ms) = countTestId t ns + countTestId t ms := by
  simp [countTestId, withTestId_append]

lemma textsOf_append (ns ms : List Node) :
    textsOf (ns ++ ms) = textsOf ns ++ textsOf ms := by
  simp [textsOf, nodesOfList_append, List.filterMap_append]

lemma withTestId_cons (t : String) (n : Node) (ns : List Node) :
    withTestId t (n :: ns) = withTestId t [n] ++ withTestId t ns := by
  have h : n :: ns = [n] ++ ns := rfl
  rw [h, withTestId_append]

lemma countTestId_cons (t : String) (n : Node) (ns : List Node) :
    countTestId t (n :: ns) = countTestId t [n] + countTestId t ns := by
  have h : n :: ns = [n] ++ ns := rfl
  rw [h, countTestId_append]

lemma textsOf_cons (n : Node) (ns : List Node) :
    textsOf (n :: ns) = textsOf [n] ++ textsOf ns := by
  have h : n :: ns = [n] ++ ns := rfl
  rw [h, textsOf_append]

lemma withTestId_single (t : String) (tid tx : Option String) (cs : List Node) :
    withTestId t [Node.mk tid tx cs]
      = (if tid = some t then [Node.mk tid tx cs] else []) ++ withTestId t cs := by
  by_cases h : tid = some t <;>
    simp [withTestId, nodesOfList_cons, nodesOf_mk, nodesOfList_nil,
      List.filter_cons, Node.testId, h]

lemma countTestId_single (t : String) (tid tx : Option String) (cs : List Node) :
    countTestId t [Node.mk tid tx cs]
      = (if tid = some t then 1 else 0) + countTestId t cs := by
  rw [countTestId, withTestId_single]
  by_cases h : tid = some t <;> simp [h, countTestId, Nat.add_comm]

lemma textsOf_single (tid tx : Option String) (cs : List Node) :
    textsOf [Node.mk tid tx cs] = tx.toList ++ textsOf cs := by
  cases tx <;>
    simp [textsOf, nodesOfList_cons, nodesOf_mk, nodesOfList_nil,
      List.filterMap_cons, Node.text]

lemma withTestId_cons_mk (t : String) (tid tx : Option String)
    (cs ns : List Node) :
    withTestId t (Node.mk tid tx cs :: ns)
      = ((if tid = some t then [Node.mk tid tx cs] else [])
          ++ withTestId t cs) ++ withTestId t ns := by
  rw [withTestId_cons, withTestId_single]

lemma countTestId_cons_mk (t : String) (tid tx : Option String)
    (cs ns : List Node) :
    countTestId t (Node.mk tid tx cs :: ns)
      = ((if tid = some t then 1 else 0) + countTestId t cs)
          + countTestId t ns := by
  rw [countTestId_cons, countTestId_single]

lemma textsOf_cons_mk (tid tx : Option String) (cs ns : List Node) :
    textsOf (Node.mk tid tx cs :: ns)
      = (tx.toList ++ textsOf cs) ++ textsOf ns := by
  rw [textsOf_cons, textsOf_single]

lemma withTestId_eq_nil (t : String) (ns : List Node)
    (h : countTestId t ns = 0) : withTestId t ns = [] :=
  List.length_eq_zero.mp h

lemma present_eq_false_iff (o : Option String) :
    present o = false ↔ o.getD "" = "" := by
  simp [present]

lemma present_eq_true_iff (o : Option String) :
    present o = true ↔ o.getD "" ≠ "" := by
  simp [present]

lemma countTestId_optNode (t tid : String) (b : Bool) (tx : Option String)
    (h : tid ≠ t) : countTestId t (optNode b tid tx) = 0 := by
  cases b <;> simp [optNode, countTestId_nil, countTestId_single, h]

lemma countTestId_memberChildren_zero (t : String) (m : MemberProto)
    (h1 : t ≠ "stMemberDocName") (h2 : t ≠ "stMemberDocType")
    (h3 : t ≠ "stMemberDocValue") (h4 : t ≠ "stMemberDocString") :
    countTestId t (memberChildren m) = 0 := by
  cases hv : present m.value <;>
    simp [memberChildren, countTestId_append, countTestId_single,
      countTestId_nil, countTestId_optNode _ _ _ _ (Ne.symm h1),
      countTestId_optNode _ _ _ _ (Ne.symm h2), hv,
      Ne.symm h3, Ne.symm h4]

lemma countTestId_renderMember_zero (t : String) (m : MemberProto)
    (h0 : t ≠ "stMember")
    (h1 : t ≠ "stMemberDocName") (h2 : t ≠ "stMemberDocType")
    (h3 : t ≠ "stMemberDocValue") (h4 : t ≠ "stMemberDocString") :
    countTestId t [renderMember m] = 0 := by
  rw [renderMember, countTestId_single,
    countTestId_memberChildren_zero t m h1 h2 h3 h4]
  simp [Ne.symm h0]

lemma withTestId_stMember_renderMember (m : MemberProto) :
    withTestId "stMember" [renderMember m] = [renderMember m] := by
  conv_lhs => rw [renderMember]
  rw [withTestId_single, withTestId_eq_nil _ _
    (countTestId_memberChildren_zero "stMember" m
      (by decide) (by decide) (by decide) (by decide))]
  simp [renderMember]

lemma countTestId_map_renderMember_zero (t : String) (ms : List MemberProto)
    (h0 : t ≠ "stMember")
    (h1 : t ≠ "stMemberDocName") (h2 : t ≠ "stMemberDocType")
    (h3 : t ≠ "stMemberDocValue") (h4 : t ≠ "stMemberDocString") :
    countTestId t (ms.map renderMember) = 0 := by
  induction ms with
  | nil => rfl
  | cons m ms ih =>
    rw [List.map_cons, countTestId_cons,
      countTestId_renderMember_zero t m h0 h1 h2 h3 h4, ih]

lemma withTestId_stMember_map_renderMember (ms : List MemberProto) :
    withTestId "stMember" (ms.map renderMember) = ms.map renderMember := by
  induction ms with
  | nil => rfl
  | cons m ms ih =>
    rw [List.map_cons, withTestId_cons, withTestId_stMember_renderMember, ih]
    rfl

lemma countTestId_headerBlock_zero (t : String) (d : DocStringProto)
    (h0 : t ≠ "stDocstring") (h1 : t ≠ "stDocstringDocName")
    (h2 : t ≠ "stDocstringDocValue") (h3 : t ≠ "stDocstringDocType") :
    countTestId t (headerBlock d) = 0 := by
  cases hs : headerShown d <;>
    simp [headerBlock, hs, countTestId_nil, countTestId_single,
      countTestId_append, countTestId_optNode _ _ _ _ (Ne.symm h1),
      countTestId_optNode _ _ _ _ (Ne.symm h2),
      countTestId_optNode _ _ _ _ (Ne.symm h3), Ne.symm h0]

lemma countTestId_docBlock_zero (t : String) (d : DocStringProto)
    (h0 : t ≠ "stDocstring") (h1 : t ≠ "stDocstringDocstring") :
    countTestId t (docBlock d) = 0 := by
  cases hd : present d.docString <;> cases hs : headerShown d <;>
    simp [docBlock, hd, hs, countTestId_nil, countTestId_single,
      Ne.symm h0, Ne.symm h1]

lemma countTestId_membersBlock_zero (t : String) (d : DocStringProto)
    (h0 : t ≠ "stDocstringMembersTable") (h1 : t ≠ "stMember")
    (h2 : t ≠ "stMemberDocName") (h3 : t ≠ "stMemberDocType")
    (h4 : t ≠ "stMemberDocValue") (h5 : t ≠ "stMemberDocString") :
    countTestId t (membersBlock d) = 0 := by
  cases he : d.members.isEmpty <;>
    simp [membersBlock, he, countTestId_nil, countTestId_single, Ne.symm h0,
      countTestId_map_renderMember_zero t _ h1 h2 h3 h4 h5]

lemma countTestId_membersBlock_table (d : DocStringProto) :
    countTestId "stDocstringMembersTable" (membersBlock d)
      = if d.members.isEmpty then 0 else 1 := by
  cases he : d.members.isEmpty <;>
    simp [membersBlock, he, countTestId_nil, countTestId_single,
      countTestId_map_renderMember_zero "stDocstringMembersTable" _
        (by decide) (by decide) (by decide) (by decide) (by decide)]

lemma withTestId_membersBlock_table (d : DocStringProto) :
    withTestId "stDocstringMembersTable" (membersBlock d) = membersBlock d := by
  cases he : d.members.isEmpty <;>
    simp [membersBlock, he, withTestId_nil, withTestId_single,
      withTestId_eq_nil _ _
        (countTestId_map_renderMember_zero "stDocstringMembersTable" _
          (by decide) (by decide) (by decide) (by decide) (by decide))]

lemma withTestId_membersBlock_stMember (d : DocStringProto) :
    withTestId "stMember" (membersBlock d) = d.members.map renderMember := by
  cases he : d.members.isEmpty
  · simp [membersBlock, he, withTestId_single, withTestId_nil,
      withTestId_stMember_map_renderMember]
  · have hnil : d.members = [] := List.isEmpty_iff.mp he
    simp [membersBlock, he, hnil, withTestId_nil]

/-- C1: for every DocString descriptor in which name, value and type are all
absent and the docString is empty, the rendered output contains no node tagged
with test id stDocstring. -/
theorem docstring_empty_renders_no_container (d : DocStringProto)
    (hn : present d.name = false) (hv : present d.value = false)
    (ht : present d.type = false) (hd : d.docString.getD "" = "") :
    countTestId "stDocstring" (renderDocString d) = 0 := by
  have hds : present d.docString = false := (present_eq_false_iff _).mpr hd
  have hsh : headerShown d = false := by simp [headerShown, hn, hv, ht]
  rw [renderDocString, countTestId_append, countTestId_append,
    countTestId_membersBlock_zero "stDocstring" d (by decide) (by decide)
      (by decide) (by decide) (by decide) (by decide)]
  simp [headerBlock, hsh, docBlock, hds, countTestId_nil]

theorem docstring_empty_renders_no_container_witness :
    present (DocStringProto.mk none none none none
        [MemberProto.mk (some "m1") none none none]).name = false ∧
    present (DocStringProto.mk none none none none
        [MemberProto.mk (some "m1") none none none]).value = false ∧
    present (DocStringProto.mk none none none none
        [MemberProto.mk (some "m1") none none none]).type = false ∧
    (DocStringProto.mk none none none none
        [MemberProto.mk (some "m1") none none none]).docString.getD "" = "" ∧
    countTestId "stDocstring"
      (renderDocString (DocStringProto.mk none none none none
        [MemberProto.mk (some "m1") none none none])) = 0 :=
  ⟨rfl, rfl, rfl, rfl,
    docstring_empty_renders_no_container _ rfl rfl rfl rfl⟩

/-- C2: for every Member whose value is present, rendering shows the value in
the stMemberDocValue region, renders no stMemberDocString region, and every
text the row displays is the name, the type or the value, never the
docString. -/
theorem member_value_suppresses_docstring (m : MemberProto)
    (hv : present m.value = true) :
    withTestId "stMemberDocValue" [renderMember m]
      = [Node.mk (some "stMemberDocValue") m.value []] ∧
    countTestId "stMemberDocString" [renderMember m] = 0 ∧
    ∀ s ∈ textsOf [renderMember m],
      m.name = some s ∨ m.type = some s ∨ m.value = some s := by
  refine ⟨?_, ?_, ?_⟩
  · conv_lhs => rw [renderMember]
    rw [withTestId_single]
    cases hn : present m.name <;> cases ht : present m.type <;>
      simp [memberChildren, optNode, hn, ht, hv, withTestId_cons_mk,
        withTestId_nil]
  · rw [renderMember, countTestId_single]
    cases hn : present m.name <;> cases ht : present m.type <;>
      simp [memberChildren, optNode, hn, ht, hv, countTestId_cons_mk,
        countTestId_nil]
  · intro s hs
    rw [renderMember, textsOf_single] at hs
    cases hn : present m.name <;> cases ht : present m.type <;>
      simp [memberChildren, optNode, hn, ht, hv, textsOf_cons_mk,
        textsOf_nil, Option.mem_toList, Option.mem_def] at hs <;>
      tauto

theorem member_value_suppresses_docstring_witness :
    present (MemberProto.mk (some "member1") (some "value1") (some "type1")
        (some "docstring1")).value = true ∧
    withTestId "stMemberDocValue"
        [renderMember (MemberProto.mk (some "member1") (some "value1")
          (some "type1") (some "docstring1"))]
      = [Node.mk (some "stMemberDocValue") (some "value1") []] ∧
    countTestId "stMemberDocString"
        [renderMember (MemberProto.mk (some "member1") (some "value1")
          (some "type1") (some "docstring1"))] = 0 ∧
    ∀ s ∈ textsOf [renderMember (MemberProto.mk (some "member1")
        (some "value1") (some "type1") (some "docstring1"))],
      (MemberProto.mk (some "member1") (some "value1") (some "type1")
          (some "docstring1")).name = some s ∨
      (MemberProto.mk (some "member1") (some "value1") (some "type1")
          (some "docstring1")).type = some s ∨
      (MemberProto.mk (some "member1") (some "value1") (some "type1")
          (some "docstring1")).value = some s :=
  ⟨rfl,
    (member_value_suppresses_docstring (MemberProto.mk (some "member1")
      (some "value1") (some "type1") (some "docstring1")) rfl).1,
    (member_value_suppresses_docstring (MemberProto.mk (some "member1")
      (some "value1") (some "type1") (some "docstring1")) rfl).2.1,
    (member_value_suppresses_docstring (MemberProto.mk (some "member1")
      (some "value1") (some "type1") (some "docstring1")) rfl).2.2⟩

/-- C3: the members table, tagged stDocstringMembersTable, renders iff the
member sequence is non-empty; when it renders it is a single node holding
exactly one stMember row per member, in order, and those rows are the only
stMember nodes of the whole output. -/
theorem members_table_iff_members_nonempty (d : DocStringProto) :
    countTestId "stDocstringMembersTable" (renderDocString d)
      = (if d.members.isEmpty then 0 else 1) ∧
    withTestId "stDocstringMembersTable" (renderDocString d)
      = (if d.members.isEmpty then []
         else [Node.mk (some "stDocstringMembersTable") none
                (d.members.map renderMember)]) ∧
    withTestId "stMember" (renderDocString d) = d.members.map renderMember := by
  refine ⟨?_, ?_, ?_⟩
  · rw [renderDocString, countTestId_append, countTestId_append,
      countTestId_headerBlock_zero _ d (by decide) (by decide) (by decide)
        (by decide),
      countTestId_docBlock_zero _ d (by decide) (by decide),
      countTestId_membersBlock_table]
    simp
  · rw [renderDocString, withTestId_append, withTestId_append,
      withTestId_eq_nil _ _ (countTestId_headerBlock_zero _ d (by decide)
        (by decide) (by decide) (by decide)),
      withTestId_eq_nil _ _ (countTestId_docBlock_zero _ d (by decide)
        (by decide)),
      withTestId_membersBlock_table]
    simp [membersBlock]
  · rw [renderDocString, withTestId_append, withTestId_append,
      withTestId_eq_nil _ _ (countTestId_headerBlock_zero _ d (by decide)
        (by decide) (by decide) (by decide)),
      withTestId_eq_nil _ _ (countTestId_docBlock_zero _ d (by decide)
        (by decide)),
      withTestId_membersBlock_stMember]
    simp

/-- C7: for every Member in which both value and docString are absent, the
row renders a stMemberDocString region holding the placeholder text
"No docs available"; the renderer is total, so no error is raised. -/
theorem member_placeholder_when_no_docs (m : MemberProto)
    (hv : present m.value = false) (hd : present m.docString = false) :
    withTestId "stMemberDocString" [renderMember m]
      = [Node.mk (some "stMemberDocString") (some "No docs available") []] ∧
    "No docs available" ∈ textsOf [renderMember m] := by
  have hgd : m.docString.getD "" = "" := (present_eq_false_iff _).mp hd
  constructor
  · conv_lhs => rw [renderMember]
    rw [withTestId_single]
    cases hn : present m.name <;> cases ht : present m.type <;>
      simp [memberChildren, optNode, hn, ht, hv, hgd, jsOrStr,
        withTestId_cons_mk, withTestId_nil]
  · rw [renderMember, textsOf_single]
    cases hn : present m.name <;> cases ht : present m.type <;>
      simp [memberChildren, optNode, hn, ht, hv, hgd, jsOrStr,
        textsOf_cons_mk, textsOf_nil]

theorem member_placeholder_when_no_docs_witness :
    present (MemberProto.mk (some "member1") none (some "type1") none).value
      = false ∧
    present (MemberProto.mk (some "member1") none (some "type1") none).docString
      = false ∧
    withTestId "stMemberDocString"
        [renderMember (MemberProto.mk (some "member1") none (some "type1") none)]
      = [Node.mk (some "stMemberDocString") (some "No docs available") []] ∧
    "No docs available" ∈ textsOf
      [renderMember (MemberProto.mk (some "member1") none (some "type1") none)] :=
  ⟨rfl, rfl,
    (member_placeholder_when_no_docs (MemberProto.mk (some "member1") none
      (some "type1") none) rfl rfl).1,
    (member_placeholder_when_no_docs (MemberProto.mk (some "member1") none
      (some "type1") none) rfl rfl).2⟩

/-- C8: for every Member, the stMemberDocType region renders iff the type
field is present, and the stMember row itself always renders. -/
theorem member_type_region_iff_type_present (m : MemberProto) :
    countTestId "stMemberDocType" [renderMember m]
      = (if present m.type then 1 else 0) ∧
    countTestId "stMember" [renderMember m] = 1 := by
  constructor
  · rw [renderMember, countTestId_single]
    cases hn : present m.name <;> cases ht : present m.type <;>
      cases hv : present m.value <;>
      simp [memberChildren, optNode, hn, ht, hv, countTestId_cons_mk,
        countTestId_nil]
  · rw [renderMember, countTestId_single,
      countTestId_memberChildren_zero "stMember" m (by decide) (by decide)
        (by decide) (by decide)]
    simp

lemma jsOr_self (a : ℚ) : jsOr a a = a := by
  unfold jsOr
  split <;> rfl

lemma jsOr_zero_left (b : ℚ) : jsOr 0 b = b := by
  simp [jsOr]

lemma jsRound_mkRat_247_2 : jsRound (mkRat 247 2) = 124 := by
  rw [jsRound, Int.floor_eq_iff]
  constructor <;> norm_num [Rat.mkRat_eq_divInt, Rat.divInt_eq_div]

lemma jsRound_123 : jsRound (123 : ℚ) = 123 := by
  rw [jsRound, Int.floor_eq_iff]
  constructor <;> norm_num

/-- C4: with the height prop supplied (full-screen mode) the svg width and
height attributes are set to the measured, rounded bounding box dimensions in
point units, and those measured values are exactly the rounded bounding box;
without a height prop (inline mode) both attributes are the string 100%. -/
theorem svg_points_fullscreen_percent_inline (bw bh : ℚ) (h : ℚ)
    (hfull : isFullScreen (some h) = true) :
    (setSvgDimensions (isFullScreen (some h)) bw bh).1.width
      = toString (jsRound bw) ++ "pt" ∧
    (setSvgDimensions (isFullScreen (some h)) bw bh).1.height
      = toString (jsRound bh) ++ "pt" ∧
    (setSvgDimensions (isFullScreen (some h)) bw bh).2
      = (jsRound bw, jsRound bh) ∧
    (setSvgDimensions (isFullScreen none) bw bh).1.width = "100%" ∧
    (setSvgDimensions (isFullScreen none) bw bh).1.height = "100%" := by
  rw [hfull]
  exact ⟨rfl, rfl, rfl, rfl, rfl⟩

theorem svg_points_fullscreen_percent_inline_witness :
    isFullScreen (some 5) = true ∧
    (setSvgDimensions (isFullScreen (some 5)) (mkRat 247 2) 123).1.width
      = "124pt" ∧
    (setSvgDimensions (isFullScreen (some 5)) (mkRat 247 2) 123).1.height
      = "123pt" ∧
    (setSvgDimensions (isFullScreen none) (mkRat 247 2) 123).1.width
      = "100%" := by
  have h := svg_points_fullscreen_percent_inline (mkRat 247 2) 123 5 rfl
  refine ⟨rfl, ?_, ?_, h.2.2.2.1⟩
  · rw [h.1, jsRound_mkRat_247_2]
    rfl
  · rw [h.2.1, jsRound_123]
    rfl

/-- C5: a layout invocation that raises is caught and its error logged, the
effect body always completes normally, and the component returns its
container markup independently of the layout outcome. -/
theorem layout_error_caught_logged_container_kept (e : String)
    (p : GraphVizChartProps) :
    graphVizEffectBody (Except.error e) = Except.ok [e] ∧
    graphVizEffectBody (Except.ok ()) = Except.ok [] ∧
    (renderGraphVizChart p).className = "graphviz stGraphVizChart" ∧
    (renderGraphVizChart p).id = "graphviz-chart-" ++ p.element.elementId :=
  ⟨rfl, rfl, rfl, rfl⟩

/-- C6: the layout effect re-runs on a re-render exactly when the width prop
or the DOT spec changed, and it registers no cleanup, so nothing in flight is
cancelled when it does re-run. -/
theorem effect_reruns_iff_width_or_spec_changed (p q : GraphVizChartProps) :
    (effectReruns p q = true
      ↔ (p.width ≠ q.width ∨ p.element.spec ≠ q.element.spec)) ∧
    (graphVizEffect p).cleanup = none := by
  constructor
  · simp [effectReruns, graphVizEffect, decide_eq_true_eq, Prod.mk.injEq,
      not_and_or]
  · rfl

theorem effect_reruns_iff_width_or_spec_changed_witness :
    effectReruns
        (GraphVizChartProps.mk 100
          (GraphVizChartProto.mk "c1" "digraph G" false) none)
        (GraphVizChartProps.mk 200
          (GraphVizChartProto.mk "c1" "digraph G" false) none) = true ∧
    (graphVizEffect (GraphVizChartProps.mk 100
        (GraphVizChartProto.mk "c1" "digraph G" false) none)).cleanup
      = none :=
  ⟨(effect_reruns_iff_width_or_spec_changed
      (GraphVizChartProps.mk 100
        (GraphVizChartProto.mk "c1" "digraph G" false) none)
      (GraphVizChartProps.mk 200
        (GraphVizChartProto.mk "c1" "digraph G" false) none)).1.mpr
      (Or.inl (by decide)),
    (effect_reruns_iff_width_or_spec_changed
      (GraphVizChartProps.mk 100
        (GraphVizChartProto.mk "c1" "digraph G" false) none)
      (GraphVizChartProps.mk 200
        (GraphVizChartProto.mk "c1" "digraph G" false) none)).2⟩

/-- C9: a height prop of 0 and an absent height prop both fail the
isFullScreen test, so a caller passing height 0 gets inline behavior: svg
attributes 100%, the chart width from useContainerWidth or the measurement,
and the same container style width as with no height prop. -/
theorem zero_height_behaves_like_inline (e : GraphVizChartProto)
    (w bw bh ow oh : ℚ) :
    isFullScreen (some 0) = false ∧
    isFullScreen none = false ∧
    (setSvgDimensions (isFullScreen (some 0)) bw bh).1
      = SvgAttrs.mk "100%" "100%" ∧
    (getChartDimensions (isFullScreen (some 0)) w (some 0)
        e.useContainerWidth ow oh).chartWidth
      = (if e.useContainerWidth then w else ow) ∧
    (getChartDimensions (isFullScreen (some 0)) w (some 0)
        e.useContainerWidth ow oh).chartWidth
      = (getChartDimensions (isFullScreen none) w none
          e.useContainerWidth ow oh).chartWidth ∧
    (renderContainer (GraphVizChartProps.mk w e (some 0)) ow oh).styleWidth
      = (renderContainer (GraphVizChartProps.mk w e none) ow oh).styleWidth :=
  ⟨rfl, rfl, rfl, rfl, rfl, rfl⟩

/-- C10: on a render where no svg measurement has happened (the measured
original width is 0, as on every render before the layout callback), the
container style width falls back to the width prop in every mode, so it is
never 0 when the width prop is not 0. -/
theorem style_width_falls_back_to_prop_width (p : GraphVizChartProps)
    (ow oh : ℚ) (how : ow = 0) :
    (renderContainer p ow oh).styleWidth = p.width ∧
    (p.width ≠ 0 → (renderContainer p ow oh).styleWidth ≠ 0) := by
  subst how
  have hmain : (renderContainer p 0 oh).styleWidth = p.width := by
    cases hf : isFullScreen p.height <;>
      cases hu : p.element.useContainerWidth <;>
      simp [renderContainer, getChartDimensions, hf, hu, jsOr_self,
        jsOr_zero_left]
  exact ⟨hmain, fun hw => by rw [hmain]; exact hw⟩

theorem style_width_falls_back_to_prop_width_witness :
    (0 : ℚ) = 0 ∧
    (renderContainer (GraphVizChartProps.mk 250
        (GraphVizChartProto.mk "c2" "digraph G" false) none) 0 0).styleWidth
      = 250 ∧
    ((250 : ℚ) ≠ 0 →
      (renderContainer (GraphVizChartProps.mk 250
          (GraphVizChartProto.mk "c2" "digraph G" false) none) 0 0).styleWidth
        ≠ 0) :=
  ⟨rfl,
    (style_width_falls_back_to_prop_width (GraphVizChartProps.mk 250
      (GraphVizChartProto.mk "c2" "digraph G" false) none) 0 0 rfl).1,
    (style_width_falls_back_to_prop_width (GraphVizChartProps.mk 250
      (GraphVizChartProto.mk "c2" "digraph G" false) none) 0 0 rfl).2⟩

end Streamlit
